import Mathlib

/-!
Verification of the FinanceOS-Bot statement-ingestion pipeline
(`src/ai/csv_parser.py`, `src/ai/pdf_parser.py`).

Shallow embedding notes:
* Python `float` amounts are modelled as exact rationals (`ℚ`); every
  comparison the pipeline performs (`< 0.01`, `< 0`, `> 0`) is exact at the
  magnitudes involved, so the control flow is faithfully reproduced.
* Python strings are modelled as `String` / `List Char`; `str.lower()` is
  modelled for the ASCII + Cyrillic alphabet the pipeline handles.
* `datetime` values never influence any verified property; row records carry
  the raw date text and the pipeline's ISO serialisation is abstracted as
  that text.
-/

/-- Python `str.lower()` on one character, restricted to the ASCII and
Cyrillic ranges that occur in the parsers' rule tables and inputs
(`A`–`Z`, `А`–`Я`, `Ѐ`–`Џ` which covers `І Ї Є`, and `Ґ`). -/
def pyLowerChar (c : Char) : Char :=
  let n := c.toNat
  if 65 ≤ n ∧ n ≤ 90 then Char.ofNat (n + 32)
  else if 0x410 ≤ n ∧ n ≤ 0x42F then Char.ofNat (n + 32)
  else if 0x400 ≤ n ∧ n ≤ 0x40F then Char.ofNat (n + 0x50)
  else if n = 0x490 then Char.ofNat 0x491
  else c

/-- Python `str.lower()` (see `pyLowerChar`). -/
def pyLower (s : String) : String :=
  ⟨s.data.map pyLowerChar⟩

/-- The whitespace class of Python's `str.strip` / `str.split` / regex `\s`
(ASCII whitespace plus the Unicode space separators). -/
def pyIsWs (c : Char) : Bool :=
  let n := c.toNat
  n == 0x20 || n == 0x9 || n == 0xA || n == 0xB || n == 0xC || n == 0xD ||
  (0x1C ≤ n && n ≤ 0x1F) || n == 0x85 || n == 0xA0 || n == 0x1680 ||
  (0x2000 ≤ n && n ≤ 0x200A) || n == 0x2028 || n == 0x2029 ||
  n == 0x202F || n == 0x205F || n == 0x3000

/-- Python `str.strip()` on a character list. -/
def pyStripL (cs : List Char) : List Char :=
  ((cs.dropWhile pyIsWs).reverse.dropWhile pyIsWs).reverse

/-- Python `str.strip()`. -/
def pyStrip (s : String) : String :=
  ⟨pyStripL s.data⟩

/-- Python's substring test `needle in hay` on character lists. -/
def listIsInfix (needle : List Char) : List Char → Bool
  | [] => needle.isEmpty
  | c :: t => needle.isPrefixOf (c :: t) || listIsInfix needle t

/-- Python's substring test `needle in hay`. -/
def strContains (hay needle : String) : Bool :=
  listIsInfix needle.data hay.data

/-- Helper of `pySplitWs`: `acc` holds the current word reversed. -/
def pySplitWsAux : List Char → List Char → List (List Char)
  | [], acc => if acc.isEmpty then [] else [acc.reverse]
  | c :: t, acc =>
    if pyIsWs c then
      if acc.isEmpty then pySplitWsAux t [] else acc.reverse :: pySplitWsAux t []
    else pySplitWsAux t (c :: acc)

/-- Python `str.split()` (split on whitespace runs, dropping empty parts). -/
def pySplitWs (cs : List Char) : List (List Char) :=
  pySplitWsAux cs []

/-- Numeric value of a digit list (most significant first). -/
def digitsVal (cs : List Char) : Nat :=
  cs.foldl (fun a c => a * 10 + (c.toNat - 48)) 0

/-- Python `float(s)` restricted to finite decimal literals: optional sign,
ASCII digits with at most one dot (at least one digit), optional exponent.
Non-finite literals (`inf`, `nan`), PEP-515 underscores and non-ASCII
Unicode digits are outside the parsers' input alphabet and are not
modelled. Returns the exact rational value (the pipeline's `float`s are
modelled as exact rationals). A second dot lands in `fdigits` and fails the
digit check, as `float()` rejects it. -/
def pyFloat? (cs : List Char) : Option ℚ :=
  let (neg, cs2) : Bool × List Char :=
    match cs with
    | '-' :: t => (true, t)
    | '+' :: t => (false, t)
    | _ => (false, cs)
  let mant := cs2.takeWhile (fun c => !(c == 'e') && !(c == 'E'))
  let rest := cs2.dropWhile (fun c => !(c == 'e') && !(c == 'E'))
  let ipart := mant.takeWhile (fun c => !(c == '.'))
  let dotTail := mant.dropWhile (fun c => !(c == '.'))
  let fdigits := match dotTail with
    | _ :: t => t
    | [] => []
  if !(ipart.all Char.isDigit) then none
  else if !(fdigits.all Char.isDigit) then none
  else if ipart.isEmpty && fdigits.isEmpty then none
  else
    let m : Nat := digitsVal (ipart ++ fdigits)
    let num : Int := if neg then -(m : Int) else (m : Int)
    let den : Nat := 10 ^ fdigits.length
    match rest with
    | [] => some (mkRat num den)
    | _ :: etail =>
      let (eneg, edigits) : Bool × List Char :=
        match etail with
        | '-' :: t => (true, t)
        | '+' :: t => (false, t)
        | _ => (false, etail)
      if edigits.isEmpty || !(edigits.all Char.isDigit) then none
      else
        let e := digitsVal edigits
        if eneg then some (mkRat num (den * 10 ^ e))
        else some (mkRat (num * ((10 ^ e : Nat) : Int)) den)

/-- `csv_parser._parse_amount`: strips the raw text, removes non-breaking and
plain spaces, treats a single comma (with no dot) as a decimal separator and
otherwise strips commas as thousands separators, then parses as a float. -/
def parse_amount (raw : String) : Option ℚ :=
  let stripped := pyStripL raw.data
  if stripped.isEmpty then none
  else
    let cleaned := stripped.filter (fun c => !(c == '\xa0' || c == ' '))
    let cleaned :=
      if cleaned.count ',' == 1 && cleaned.count '.' == 0 then
        cleaned.map (fun c => if c == ',' then '.' else c)
      else if cleaned.count ',' ≥ 1 then
        cleaned.filter (fun c => c ≠ ',')
      else cleaned
    pyFloat? cleaned

/-- C6: `_parse_amount` returns 1500.00 on "1 500,00", -1500.50 on
"-1500.50", 1234567 on "1,234,567" (multiple commas stripped as thousands
separators), and null on "abc". -/
theorem c6_parse_amount_examples :
    parse_amount "1 500,00" = some 1500 ∧
    parse_amount "-1500.50" = some (mkRat (-150050) 100) ∧
    parse_amount "1,234,567" = some 1234567 ∧
    parse_amount "abc" = none := by
  refine ⟨?_, ?_, ?_, ?_⟩ <;> decide

/-- `csv_parser.MCC_TO_CATEGORY`: the static MCC → (category, type) table. -/
def MCC_TO_CATEGORY : List (String × String × String) := [
  ("5411", "Супермаркети", "expense"),
  ("5412", "Супермаркети", "expense"),
  ("5499", "Супермаркети", "expense"),
  ("5441", "Кава/Снеки", "expense"),
  ("5814", "Заклади", "expense"),
  ("5812", "Заклади", "expense"),
  ("5813", "Заклади", "expense"),
  ("5912", "Ліки/Лікарі", "expense"),
  ("8011", "Ліки/Лікарі", "expense"),
  ("8021", "Ліки/Лікарі", "expense"),
  ("8099", "Ліки/Лікарі", "expense"),
  ("8062", "Ліки/Лікарі", "expense"),
  ("7922", "Події/Хобі", "expense"),
  ("7929", "Події/Хобі", "expense"),
  ("7941", "Спортзал", "expense"),
  ("7997", "Спортзал", "expense"),
  ("5661", "Одяг/Взуття", "expense"),
  ("5691", "Одяг/Взуття", "expense"),
  ("5651", "Одяг/Взуття", "expense"),
  ("5948", "Одяг/Взуття", "expense"),
  ("5732", "Електроніка", "expense"),
  ("5734", "Сервіси/Підписки", "expense"),
  ("5045", "Електроніка", "expense"),
  ("5999", "Товари для дому", "expense"),
  ("5200", "Товари для дому", "expense"),
  ("5251", "Товари для дому", "expense"),
  ("5511", "Авто", "expense"),
  ("5521", "Авто", "expense"),
  ("5541", "Авто", "expense"),
  ("5542", "Авто", "expense"),
  ("7523", "Авто", "expense"),
  ("7538", "Авто", "expense"),
  ("4111", "Таксі/Громадський", "expense"),
  ("4121", "Таксі/Громадський", "expense"),
  ("4131", "Таксі/Громадський", "expense"),
  ("7512", "Таксі/Громадський", "expense"),
  ("4900", "Оренда/Комунальні", "expense"),
  ("4814", "Зв\x27язок", "expense"),
  ("4812", "Зв\x27язок", "expense"),
  ("8220", "Освіта", "expense"),
  ("8299", "Освіта", "expense"),
  ("7230", "Б\x27юті", "expense"),
  ("7011", "Розважальні підписки", "expense"),
  ("6011", "Переказ (інше)", "transfer"),
  ("6012", "Переказ (інше)", "transfer"),
  ("6010", "Переказ (інше)", "transfer"),
  ("6051", "Обмін валют", "transfer"),
  ("6050", "Обмін валют", "transfer")]

/-- `csv_parser.KEYWORD_RULES`: the ordered (keyword-set, category, type)
rule list of the keyword categorization layer. -/
def KEYWORD_RULES : List (List String × String × String) := [
  (["сільпо", "silpo", "atb", "атб", "novus", "новус", "metro cash", "auchan", "ашан",
    "fozzy", "фоззі", "велмарт", "велика кишеня", "billa", "білла", "rukavychka",
    "rukavichka", "рукавичка", "ultramarket", "ультрамаркет"],
   "Супермаркети", "expense"),
  (["kfc", "mcdonald", "макдональдс", "burger king", "pizza hut", "pizza",
    "піца", "суші", "sushi", "wok", "ресторан", "кафе", "cafe", "пиво", "beer",
    "pub", "паб", "шаурма", "хінкалі", "puzata hata", "пузата хата", "chelentano",
    "celentano", "vapiano", "mafia", "якитория", "якіторія"],
   "Заклади", "expense"),
  (["starbucks", "coffee", "кава", "lavazza", "снек", "snack", "чай",
    "bakery", "пекарня", "croissant", "круасан", "smoothie"],
   "Кава/Снеки", "expense"),
  (["bolt food", "bolt", "uber", "uklon", "уклон", "taxi", "таксі",
    "маршрутка", "метро", "ukrzaliznytsia", "укрзалізниця", "ryanair",
    "wizz", "wizzair", "турагентство", "booking.com", "airbnb"],
   "Таксі/Громадський", "expense"),
  (["shell", "wog", "okko", "socar", "азс", "brsm", "укрнафта", "бензин",
    "автосервіс", "шиномонтаж", "мийка авто", "автомийка", "парковк",
    "renault", "toyota", "volkswagen"],
   "Авто", "expense"),
  (["київстар", "kyivstar", "vodafone", "life", "лайф", "інтернет",
    "internet", "lifecell", "укртелеком", "mobile", "sim", "тariф"],
   "Зв\x27язок", "expense"),
  (["комунальні", "комунальна", "водоканал", "газ", "газопостачання",
    "теплоенерго", "електро", "квартплата", "оренда", "аренда",
    "нерухомість", "ЖКП", "ЖКГ"],
   "Оренда/Комунальні", "expense"),
  (["netflix", "spotify", "apple", "google play", "steam", "adobe",
    "microsoft", "subscri", "підписка", "chatgpt", "openai", "claude",
    "anthropic", "midjourney", "figma", "canva", "notion", "patreon"],
   "Сервіси/Підписки", "expense"),
  (["rozetka", "розетка", "foxtrot", "фокстрот", "comfy", "eldorado",
    "ельдорадо", "moyo", "iphone", "samsung", "laptop", "lenovo", "dell",
    "apple store", "xiaomi"],
   "Електроніка", "expense"),
  (["зарплата", "зп", "salary", "аванс", "нарахування зп", "виплата зп",
    "заробітна плата", "заробітня плата"],
   "Зарплата", "income"),
  (["фріланс", "freelance", "upwork", "toptal", "оплата за проект",
    "за послуги", "за роботу", "винагорода"],
   "Фріланс", "income"),
  (["надходження", "нарахування", "зарахування", "від фізичної", "від фоп",
    "повернення коштів", "відшкодування"],
   "Інший дохід", "income"),
  (["подарунок", "gift", "від мами", "від тата", "від батьків"],
   "Подарунок", "income"),
  (["поповнення з картки", "card2card", "p2p", "переказ від", "від:"],
   "Переказ (інше)", "transfer"),
  (["відкладання", "на банку", "накопичення", "заощадження", "до банки",
    "на депозит", "депозит", "pension", "пенсія"],
   "Інвестиції/Скарбничка", "transfer"),
  (["обмін валют", "currency", "exchange", "конверсія", "продаж валюти",
    "купівля валюти", "usd sell", "eur buy"],
   "Обмін валют", "transfer"),
  (["аптека", "pharmacy", "farmacy", "ліки", "лікарня", "клініка",
    "clinic", "лікар", "doctor", "medis", "меділайф"],
   "Ліки/Лікарі", "expense"),
  (["gym", "спортзал", "фітнес", "fitness", "sport club", "SportLife",
    "басейн", "тренажер"],
   "Спортзал", "expense"),
  (["перукар", "barber", "косметика", "salon", "манікюр", "педикюр",
    "краса", "beauty"],
   "Б\x27юті", "expense"),
  (["zara", "h&m", "bershka", "reserved", "lcwaikiki", "pull&bear",
    "mango", "adidas", "nike", "puma", "одяг", "взуття", "shoes",
    "shafa", "lamoda"],
   "Одяг/Взуття", "expense"),
  (["кіно", "cinema", "multiplex", "планетарій", "театр", "concert",
    "концерт", "квиток", "ticket", "eventbrite", "karabas"],
   "Події/Хобі", "expense"),
  (["зсу", "prytula", "благодійн", "charity", "volunteer", "волонтер",
    "донат", "donat", "ukraine now", "повна чаша", "army"],
   "ЗСУ/Волонтери", "expense"),
  (["комісія банку", "комісія за", "bank fee", "плата за обслуговування",
    "обслуговування рахунку", "смс інформування"],
   "Комісії банків", "expense")]

/-- The "shared/returned money" markers that set `ignore_in_stats` inside a
matched keyword rule (`csv_parser.categorize`, line 535). -/
def IGNORE_MARKERS : List String := ["повернення боргу", "поділ", "split check"]

/-- `csv_parser.categorize`: layer 1 exact MCC lookup (for a non-empty,
stripped MCC present in the table), layer 2 first keyword rule with any
substring match in the lowercased description (setting the ignore flag if an
ignore marker also occurs), fallback ("Інше", "expense", false). -/
def categorize (description mcc : String) : String × String × Bool :=
  match (if mcc == "" then none else (MCC_TO_CATEGORY.lookup (pyStrip mcc))) with
  | some (cat_name, tx_type) => (cat_name, tx_type, false)
  | none =>
    let desc_lower := pyLower description
    match KEYWORD_RULES.find? (fun rule => rule.1.any (fun kw => strContains desc_lower kw)) with
    | some rule =>
      let ignore := IGNORE_MARKERS.any (fun kw => strContains desc_lower kw)
      (rule.2.1, rule.2.2, ignore)
    | none => ("Інше", "expense", false)

/-- One entry of the user's category catalog (`{id, name, type}` dicts in
the source). -/
structure Category where
  id : String
  name : String
  type : String
  deriving DecidableEq

/-- Tokens of a category name for the overlap scoring stage of
`find_category_id`: replace "/" by a space, split on whitespace, and treat
the result as a set (Python builds `set(...)`, so duplicates collapse). -/
def categoryTokens (cs : List Char) : List (List Char) :=
  (pySplitWs (cs.map (fun c => if c == '/' then ' ' else c))).dedup

/-- Fold of the token-overlap stage of `find_category_id`: keeps
`(best_id, best_score)`, updating only on a strictly greater score, so the
first maximum wins. -/
def bestOverlap (q_tokens : List (List Char)) :
    List Category → Option String × Nat → Option String × Nat
  | [], best => best
  | cat :: rest, (best_id, best_score) =>
    let db_tokens := categoryTokens (pyLower cat.name).data
    let score := q_tokens.countP (fun t => db_tokens.contains t)
    if score > best_score then bestOverlap q_tokens rest (some cat.id, score)
    else bestOverlap q_tokens rest (best_id, best_score)

/-- `csv_parser.find_category_id`: fuzzy category lookup — exact
case-insensitive name match within the same type, then bidirectional
substring containment, then token-overlap scoring (first maximum wins),
else null. -/
def find_category_id (categories : List Category) (name tx_type : String) :
    Option String :=
  let name_q := pyStrip (pyLower name)
  let same_type := categories.filter (fun c => c.type == tx_type)
  match same_type.find? (fun c => pyStrip (pyLower c.name) == name_q) with
  | some cat => some cat.id
  | none =>
    match same_type.find? (fun c =>
        let db_name := pyStrip (pyLower c.name)
        strContains db_name name_q || strContains name_q db_name) with
    | some cat => some cat.id
    | none =>
      let q_tokens := categoryTokens name_q.data
      let (best_id, best_score) := bestOverlap q_tokens same_type (none, 0)
      if best_score > 0 then best_id else none

/-- `csv_parser.BankFormat`: the closed set of bank identifiers. -/
def BankFormat.MONO : String := "monobank"

/-- `csv_parser.BankFormat.PRIVAT`. -/
def BankFormat.PRIVAT : String := "privatbank"

/-- `csv_parser.BankFormat.OSCHADBANK`. -/
def BankFormat.OSCHADBANK : String := "oschadbank"

/-- `csv_parser.BankFormat.RAIFFEISEN`. -/
def BankFormat.RAIFFEISEN : String := "raiffeisen"

/-- `csv_parser.BankFormat.PUMB`. -/
def BankFormat.PUMB : String := "pumb"

/-- `csv_parser.BankFormat.ABANK`. -/
def BankFormat.ABANK : String := "abank"

/-- `csv_parser.BankFormat.GENERIC`. -/
def BankFormat.GENERIC : String := "generic"

/-- `detect_bank`'s header normalisation: each header lowercased and
stripped (the source builds a set; membership and substring scans only ever
test membership, so a list is an equivalent model). -/
def normHeaders (headers : List String) : List String :=
  headers.map (fun h => pyStrip (pyLower h))

/-- `any(needle in h for h in h_lower)`. -/
def hAny (hl : List String) (needle : String) : Bool :=
  hl.any (fun h => strContains h needle)

/-- `detect_bank` rule 1: `"mcc" in h_lower` and a "деталі операції"
substring. -/
def ruleMono1 (hl : List String) : Bool :=
  hl.contains "mcc" && hAny hl "деталі операції"

/-- `detect_bank` rule 2: a "дата і час операції" substring. -/
def ruleMono2 (hl : List String) : Bool :=
  hAny hl "дата і час операції"

/-- `detect_bank` rule 3: "дата і час" and "опис операції" substrings. -/
def rulePrivat1 (hl : List String) : Bool :=
  hAny hl "дата і час" && hAny hl "опис операції"

/-- `detect_bank` rule 4: a "деталі операції" substring and exact
"категорія" header. -/
def rulePrivat2 (hl : List String) : Bool :=
  hAny hl "деталі операції" && hl.contains "категорія"

/-- `detect_bank` rule 5: "призначення платежу" and ("дебет" or "кредит")
substrings. -/
def ruleOschad1 (hl : List String) : Bool :=
  hAny hl "призначення платежу" && (hAny hl "дебет" || hAny hl "кредит")

/-- `detect_bank` rule 6: a "призначення платежу" substring. -/
def ruleOschad2 (hl : List String) : Bool :=
  hAny hl "призначення платежу"

/-- `detect_bank` rule 7: an "operation date" substring. -/
def ruleRaif1 (hl : List String) : Bool :=
  hAny hl "operation date"

/-- `detect_bank` rule 8: ("document amount" or "операція" substring) and
exact "amount" header. -/
def ruleRaif2 (hl : List String) : Bool :=
  hl.any (fun h => strContains h "document amount" || strContains h "операція") &&
    hl.contains "amount"

/-- `detect_bank` rule 9: "дата документу" and "призначення" substrings. -/
def rulePumb1 (hl : List String) : Bool :=
  hAny hl "дата документу" && hAny hl "призначення"

/-- `detect_bank` rule 10: a "пумб" or "pumb" substring. -/
def rulePumb2 (hl : List String) : Bool :=
  hl.any (fun h => strContains h "пумб" || strContains h "pumb")

/-- `detect_bank` rule 11: a "прихід" or "витрати" substring. -/
def ruleAbank1 (hl : List String) : Bool :=
  hAny hl "прихід" || hAny hl "витрати"

/-- `detect_bank` rule 12: an "abank" or "а-банк" substring. -/
def ruleAbank2 (hl : List String) : Bool :=
  hl.any (fun h => strContains h "abank" || strContains h "а-банк")

/-- `csv_parser.detect_bank`: the ordered if-chain over the signature
rules, generic fallback last. -/
def detect_bank (headers : List String) : String :=
  let hl := normHeaders headers
  if ruleMono1 hl then BankFormat.MONO
  else if ruleMono2 hl then BankFormat.MONO
  else if rulePrivat1 hl then BankFormat.PRIVAT
  else if rulePrivat2 hl then BankFormat.PRIVAT
  else if ruleOschad1 hl then BankFormat.OSCHADBANK
  else if ruleOschad2 hl then BankFormat.OSCHADBANK
  else if ruleRaif1 hl then BankFormat.RAIFFEISEN
  else if ruleRaif2 hl then BankFormat.RAIFFEISEN
  else if rulePumb1 hl then BankFormat.PUMB
  else if rulePumb2 hl then BankFormat.PUMB
  else if ruleAbank1 hl then BankFormat.ABANK
  else if ruleAbank2 hl then BankFormat.ABANK
  else BankFormat.GENERIC

/-- `detect_bank`'s signature rules in source order, paired with the bank
identifier each one yields. -/
def bankRules : List ((List String → Bool) × String) := [
  (ruleMono1, BankFormat.MONO),
  (ruleMono2, BankFormat.MONO),
  (rulePrivat1, BankFormat.PRIVAT),
  (rulePrivat2, BankFormat.PRIVAT),
  (ruleOschad1, BankFormat.OSCHADBANK),
  (ruleOschad2, BankFormat.OSCHADBANK),
  (ruleRaif1, BankFormat.RAIFFEISEN),
  (ruleRaif2, BankFormat.RAIFFEISEN),
  (rulePumb1, BankFormat.PUMB),
  (rulePumb2, BankFormat.PUMB),
  (ruleAbank1, BankFormat.ABANK),
  (ruleAbank2, BankFormat.ABANK)]

/-- The first matching rule's bank, generic when none matches. -/
def firstMatchBank (hl : List String) : String :=
  ((bankRules.find? (fun r => r.1 hl)).map (fun r => r.2)).getD BankFormat.GENERIC

/-- C7: `detect_bank` on ["Дата і час операції", "MCC", "Сума"] returns the
Monobank identifier, and in general `detect_bank` equals the first matching
rule of the ordered signature-rule list, with the generic identifier when no
rule matches. -/
theorem c7_detect_bank_first_match :
    detect_bank ["Дата і час операції", "MCC", "Сума"] = BankFormat.MONO ∧
    ∀ headers : List String,
      detect_bank headers = firstMatchBank (normHeaders headers) := by
  refine ⟨by decide, ?_⟩
  intro headers
  by_cases h1 : ruleMono1 (normHeaders headers)
  · simp [detect_bank, firstMatchBank, bankRules, List.find?, h1]
  by_cases h2 : ruleMono2 (normHeaders headers)
  · simp [detect_bank, firstMatchBank, bankRules, List.find?, h1, h2]
  by_cases h3 : rulePrivat1 (normHeaders headers)
  · simp [detect_bank, firstMatchBank, bankRules, List.find?, h1, h2, h3]
  by_cases h4 : rulePrivat2 (normHeaders headers)
  · simp [detect_bank, firstMatchBank, bankRules, List.find?, h1, h2, h3, h4]
  by_cases h5 : ruleOschad1 (normHeaders headers)
  · simp [detect_bank, firstMatchBank, bankRules, List.find?, h1, h2, h3, h4, h5]
  by_cases h6 : ruleOschad2 (normHeaders headers)
  · simp [detect_bank, firstMatchBank, bankRules, List.find?, h1, h2, h3, h4, h5, h6]
  by_cases h7 : ruleRaif1 (normHeaders headers)
  · simp [detect_bank, firstMatchBank, bankRules, List.find?, h1, h2, h3, h4, h5, h6, h7]
  by_cases h8 : ruleRaif2 (normHeaders headers)
  · simp [detect_bank, firstMatchBank, bankRules, List.find?, h1, h2, h3, h4, h5, h6, h7, h8]
  by_cases h9 : rulePumb1 (normHeaders headers)
  · simp [detect_bank, firstMatchBank, bankRules, List.find?, h1, h2, h3, h4, h5, h6, h7, h8, h9]
  by_cases h10 : rulePumb2 (normHeaders headers)
  · simp [detect_bank, firstMatchBank, bankRules, List.find?, h1, h2, h3, h4, h5, h6, h7, h8, h9, h10]
  by_cases h11 : ruleAbank1 (normHeaders headers)
  · simp [detect_bank, firstMatchBank, bankRules, List.find?, h1, h2, h3, h4, h5, h6, h7, h8, h9, h10, h11]
  by_cases h12 : ruleAbank2 (normHeaders headers)
  · simp [detect_bank, firstMatchBank, bankRules, List.find?, h1, h2, h3, h4, h5, h6, h7, h8, h9, h10, h11, h12]
  simp [detect_bank, firstMatchBank, bankRules, List.find?, h1, h2, h3, h4, h5, h6, h7, h8, h9, h10, h11, h12]

/-- C3 counterexample: on description "повернення боргу 200" with empty
mcc, `categorize` returns `ignore_in_stats = false`, not `true` as the
claim states. -/
theorem c3_counterexample_ignore_false :
    (categorize "повернення боргу 200" "").2.2 = false := by decide

/-- C3 amended: no keyword rule matches "повернення боргу 200", so even
though the description contains the ignore marker "повернення боргу",
`categorize` returns the fallback ("Інше", "expense") with
`ignore_in_stats = false` — the ignore marker only applies inside a matched
keyword rule. -/
theorem c3_amended_fallback_no_ignore :
    categorize "повернення боргу 200" "" = ("Інше", "expense", false) ∧
    KEYWORD_RULES.find?
      (fun rule => rule.1.any
        (fun kw => strContains (pyLower "повернення боргу 200") kw)) = none ∧
    IGNORE_MARKERS.any
      (fun kw => strContains (pyLower "повернення боргу 200") kw) = true := by
  refine ⟨by decide, by decide, by decide⟩

/-- Uppercase class of `pdf_parser._RE_PERSON_NAME`: `[А-ЯІЇЄҐ]`. -/
def isUpperName (c : Char) : Bool :=
  let n := c.toNat
  (0x410 ≤ n && n ≤ 0x42F) || n == 0x406 || n == 0x407 || n == 0x404 || n == 0x490

/-- Lowercase class of `pdf_parser._RE_PERSON_NAME`:
`[а-яіїєґ'\-]`. -/
def isLowerName (c : Char) : Bool :=
  let n := c.toNat
  (0x430 ≤ n && n ≤ 0x44F) || n == 0x456 || n == 0x457 || n == 0x454 ||
    n == 0x491 || n == 0x27 || n == 0x2D

/-- Separator class of `pdf_parser._RE_PERSON_NAME`: `[\s\-]`. -/
def isSepName (c : Char) : Bool :=
  pyIsWs c || c == '-'

/-- All suffixes reachable by consuming between 1 and `fuel` characters of
the lowercase class (the regex quantifier `{1,20}`, with backtracking: every
possible match length is kept). -/
def lowerRuns : Nat → List Char → List (List Char)
  | 0, _ => []
  | _ + 1, [] => []
  | fuel + 1, c :: t =>
    if isLowerName c then t :: lowerRuns fuel t else []

/-- Remainders after matching one regex unit `[А-ЯІЇЄҐ][lower]{1,20}`. -/
def matchNameUnit : List Char → List (List Char)
  | [] => []
  | c :: t => if isUpperName c then lowerRuns 20 t else []

/-- Remainders after matching one `[\s\-]` separator plus one name unit. -/
def matchSepUnit : List Char → List (List Char)
  | [] => []
  | c :: t => if isSepName c then matchNameUnit t else []

/-- `(…){1,3}$` tail of `_RE_PERSON_NAME`: between 1 and `fuel` repetitions
of separator + name unit, ending exactly at the end of the text. -/
def matchNameReps : Nat → List Char → Bool
  | 0, _ => false
  | fuel + 1, cs =>
    (matchSepUnit cs).any (fun r => r.isEmpty || matchNameReps fuel r)

/-- Full (anchored) match of `pdf_parser._RE_PERSON_NAME`:
`^[А-ЯІЇЄҐ][lower]{1,20}(?:[\s\-][А-ЯІЇЄҐ][lower]{1,20}){1,3}$`. -/
def personNameRegexMatch (cs : List Char) : Bool :=
  (matchNameUnit cs).any (fun r => matchNameReps 3 r)

/-- Character class of the digit/punctuation reject in
`pdf_parser._is_person_name`: `[\d@.,/*&#(){}\[\]|]` (ASCII digits; the
Unicode digits `\d` also accepts do not occur in the pipeline's inputs). -/
def isPersonForbidden (c : Char) : Bool :=
  c.isDigit || c == '@' || c == '.' || c == ',' || c == '/' || c == '*' ||
    c == '&' || c == '#' || c == '(' || c == ')' || c == '\x7b' ||
    c == '\x7d' || c == '[' || c == ']' || c == '|'

/-- `pdf_parser._is_person_name`: true when the text is at least 5
characters, has no digit or listed punctuation, splits into 2–4 whitespace
words, and its stripped form matches `_RE_PERSON_NAME`. -/
def is_person_name (text : String) : Bool :=
  if text.data.length < 5 then false
  else if text.data.any isPersonForbidden then false
  else
    let words := pySplitWs text.data
    if words.length < 2 || words.length > 4 then false
    else personNameRegexMatch (pyStripL text.data)

/-- `pdf_parser.ALWAYS_TRANSFER_MCC`: MCC codes that are always transfers
regardless of sign. -/
def ALWAYS_TRANSFER_MCC : List String := ["6010", "6011", "6012", "6051", "6050"]

/-- `pdf_parser.TRANSFER_OUT_KEYWORDS`. -/
def TRANSFER_OUT_KEYWORDS : List String :=
  ["депозит", "вклад", "накопич", "на банку", "заощадж", "скарбничк"]

/-- `pdf_parser.INCOME_KEYWORDS`. -/
def INCOME_KEYWORDS : List String :=
  ["зарплата", "зп", "salary", "аванс", "виплата", "нарахування зп",
   "заробітна плата", "фріланс", "надходження", "повернення"]

/-- Python's `abs` on a float amount (amounts are modelled as exact
rationals). -/
def ratAbs (q : ℚ) : ℚ := if q < 0 then -q else q

/-- `pdf_parser._classify_transaction`: person-name → transfer (highest
priority), then the always-transfer MCC set with sign dispatch, then
positive-amount keyword checks falling back to `categorize` with
expense→income reinterpretation, else `categorize` with income→expense
reinterpretation. -/
def classify_transaction (raw_amount : ℚ) (description mcc : String) :
    String × String × Bool :=
  let desc_lower := pyLower description
  let is_positive := decide (0 < raw_amount)
  if is_person_name description then ("Переказ (людині)", "transfer", false)
  else if ALWAYS_TRANSFER_MCC.contains mcc then
    if is_positive then
      if INCOME_KEYWORDS.any (fun kw => strContains desc_lower kw) then
        ("Інший дохід", "income", false)
      else if mcc == "4829" then ("Інший дохід", "income", false)
      else ("Переказ (інше)", "transfer", false)
    else
      if TRANSFER_OUT_KEYWORDS.any (fun kw => strContains desc_lower kw) then
        ("Інвестиції/Скарбничка", "transfer", false)
      else ("Переказ (інше)", "transfer", false)
  else if is_positive then
    if TRANSFER_OUT_KEYWORDS.any (fun kw => strContains desc_lower kw) then
      ("Переказ (інше)", "transfer", false)
    else if ["зарплата", "зп", "salary", "аванс"].any
        (fun kw => strContains desc_lower kw) then ("Зарплата", "income", false)
    else if ["фріланс", "freelance", "upwork"].any
        (fun kw => strContains desc_lower kw) then ("Фріланс", "income", false)
    else
      match categorize description mcc with
      | (cat_name, tx_type, ignore) =>
        if tx_type == "expense" then ("Інший дохід", "income", false)
        else (cat_name, tx_type, ignore)
  else
    match categorize description mcc with
    | (cat_name, tx_type, ignore) =>
      if tx_type == "income" then ("Інше", "expense", false)
      else (cat_name, tx_type, ignore)

/-- A `RawRow`: one extracted source record before categorization. The
`date` field carries the row's date text (`datetime` parsing and ISO
serialisation are abstracted; no verified property depends on them). -/
structure RawRow where
  date : String
  amount : ℚ
  description : String
  mcc : String
  deriving DecidableEq

/-- A `CategorizedRow`: the dict each pipeline emits, ready for
persistence. The `metadata` dict is flattened into `metaRawCategory`,
`metaMcc`, `metaBank` and `metaIsOutgoing` (the latter `none` for the CSV
pipeline, which does not set `is_outgoing`). -/
structure CategorizedRow where
  user_id : String
  amount : ℚ
  type : String
  category_id : Option String
  description : Option String
  source : String
  ignore_in_stats : Bool
  transaction_date : String
  metaRawCategory : String
  metaMcc : String
  metaBank : String
  metaIsOutgoing : Option Bool
  deriving DecidableEq, Inhabited

/-- The emitted `description` field: truncated to 255 characters, null if
empty (`(parsed["description"] or "")[:255] or None`). -/
def emittedDescription (description : String) : Option String :=
  let truncated := description.data.take 255
  if truncated.isEmpty then none else some ⟨truncated⟩

/-- The CSV sign-correction step (`parse_csv` lines 621–631): a debit with
an income type is forced to expense (category kept); a credit with an
expense type is reclassified to income/"Інший дохід" when a salary keyword
occurs in the description, else to transfer/"Переказ (інше)". Returns the
corrected (category, type). -/
def signCorrect (is_debit : Bool) (description cat_name tx_type : String) :
    String × String :=
  let tx_type2 := if is_debit && tx_type == "income" then "expense" else tx_type
  if !is_debit && tx_type2 == "expense" then
    let desc_lower := pyLower description
    let is_income_kw := ["зарплата", "зп", "salary", "аванс", "нарахування зп",
      "від фізичної"].any (fun kw => strContains desc_lower kw)
    (if is_income_kw then "Інший дохід" else "Переказ (інше)",
     if is_income_kw then "income" else "transfer")
  else (cat_name, tx_type2)

/-- The per-row body of the `parse_csv` loop after extraction: `none` when
the row is dropped for `|amount| < 0.01`, otherwise the emitted
`CategorizedRow` (threshold check, sign correction, category resolution,
emission — `csv_parser.parse_csv` lines 608–645). -/
def csvProcessRow (user_id : String) (categories : List Category)
    (bank : String) (parsed : RawRow) : Option CategorizedRow :=
  let raw_amount := parsed.amount
  let abs_amount := ratAbs raw_amount
  if abs_amount < mkRat 1 100 then none
  else
    let is_debit := decide (raw_amount < 0)
    match categorize parsed.description parsed.mcc with
    | (cat_name, tx_type, ignore) =>
      match signCorrect is_debit parsed.description cat_name tx_type with
      | (cat_name2, tx_type2) =>
        some {
          user_id := user_id,
          amount := abs_amount,
          type := tx_type2,
          category_id := find_category_id categories cat_name2 tx_type2,
          description := emittedDescription parsed.description,
          source := "csv",
          ignore_in_stats := ignore,
          transaction_date := parsed.date,
          metaRawCategory := cat_name2,
          metaMcc := parsed.mcc,
          metaBank := bank,
          metaIsOutgoing := none }

/-- The `parse_csv` row loop over the per-bank extractor results (`none`
entries are extractor rejections): returns the emitted rows in order and
the skipped count. -/
def csvLoop (user_id : String) (categories : List Category) (bank : String) :
    List (Option RawRow) → List CategorizedRow × Nat
  | [] => ([], 0)
  | none :: rest =>
    let (rows, skipped) := csvLoop user_id categories bank rest
    (rows, skipped + 1)
  | some parsed :: rest =>
    let (rows, skipped) := csvLoop user_id categories bank rest
    match csvProcessRow user_id categories bank parsed with
    | none => (rows, skipped + 1)
    | some r => (r :: rows, skipped)

/-- The per-row body of `pdf_parser._process_raw_rows`: `none` when the row
is dropped for `|amount| < 0.01`, otherwise the emitted `CategorizedRow`
(classification by `_classify_transaction`, `source` set to the constant
"csv" — the DB enum has no pdf tag — and `metadata.is_outgoing`
recorded). -/
def pdfProcessRow (user_id : String) (categories : List Category)
    (bank : String) (parsed : RawRow) : Option CategorizedRow :=
  let raw_amount := parsed.amount
  let abs_amount := ratAbs raw_amount
  if abs_amount < mkRat 1 100 then none
  else
    match classify_transaction raw_amount parsed.description parsed.mcc with
    | (cat_name, tx_type, ignore) =>
      some {
        user_id := user_id,
        amount := abs_amount,
        type := tx_type,
        category_id := find_category_id categories cat_name tx_type,
        description := emittedDescription parsed.description,
        source := "csv",
        ignore_in_stats := ignore,
        transaction_date := parsed.date,
        metaRawCategory := cat_name,
        metaMcc := parsed.mcc,
        metaBank := bank,
        metaIsOutgoing := some (decide (raw_amount < 0)) }

/-- The row loop of `pdf_parser._process_raw_rows`: emitted rows in order
and the number of rows skipped inside the loop. -/
def pdfLoop (user_id : String) (categories : List Category) (bank : String) :
    List RawRow → List CategorizedRow × Nat
  | [] => ([], 0)
  | parsed :: rest =>
    let (rows, skipped) := pdfLoop user_id categories bank rest
    match pdfProcessRow user_id categories bank parsed with
    | none => (rows, skipped + 1)
    | some r => (r :: rows, skipped)

/-- `PDFParseResult`: rows, skipped count, bank, and the `bank_totals`
header summary (kept abstract as key/value text pairs; no verified property
depends on its contents). -/
structure PDFParseResult where
  rows : List CategorizedRow
  skipped : Nat
  bank : String
  bank_totals : List (String × String)
  deriving DecidableEq

/-- `pdf_parser._process_raw_rows`: processes the extracted raw rows,
adding the loop's skips to the count accumulated during extraction. -/
def process_raw_rows (raw_rows : List RawRow) (total_skipped : Nat)
    (bank : String) (bank_totals : List (String × String)) (user_id : String)
    (categories : List Category) : PDFParseResult :=
  let (rows, skipped) := pdfLoop user_id categories bank raw_rows
  ⟨rows, total_skipped + skipped, bank, bank_totals⟩

/-- C5: whenever the description matches the person-full-name pattern, the
PDF classifier returns ("Переказ (людині)", transfer) regardless of the
amount (either sign) and of the mcc string. -/
theorem c5_person_name_priority (raw_amount : ℚ) (description mcc : String)
    (h : is_person_name description = true) :
    classify_transaction raw_amount description mcc =
      ("Переказ (людині)", "transfer", false) := by
  simp [classify_transaction, h]

/-- C5 witness: amount -300 with description "Іван Петренко" (and an
arbitrary mcc "4829") yields ("Переказ (людині)", transfer). -/
theorem c5_person_name_priority_witness :
    is_person_name "Іван Петренко" = true ∧
    classify_transaction (-300) "Іван Петренко" "4829" =
      ("Переказ (людині)", "transfer", false) :=
  ⟨by decide, c5_person_name_priority (-300) "Іван Петренко" "4829" (by decide)⟩

/-- The sign-correction step leaves (category, type) unchanged when the
type already agrees with the sign. -/
theorem signCorrect_noop (is_debit : Bool) (description cat_name tx_type : String)
    (h : (is_debit = true ∧ tx_type ≠ "income") ∨
         (is_debit = false ∧ tx_type ≠ "expense")) :
    signCorrect is_debit description cat_name tx_type = (cat_name, tx_type) := by
  rcases h with ⟨hd, ht⟩ | ⟨hd, ht⟩ <;>
    simp [signCorrect, hd, beq_iff_eq, ht]

/-- C8: when the categorizer's type already agrees with the amount's sign
(negative amount with a non-income type, or positive amount with a
non-expense type), the CSV pipeline emits exactly the categorizer's type
and category name. -/
theorem c8_sign_correction_noop (user_id : String) (categories : List Category)
    (bank : String) (p : RawRow) (cat_name tx_type : String) (ignore : Bool)
    (hcat : categorize p.description p.mcc = (cat_name, tx_type, ignore))
    (hthr : mkRat 1 100 ≤ ratAbs p.amount)
    (hagree : (p.amount < 0 ∧ tx_type ≠ "income") ∨
              (0 < p.amount ∧ tx_type ≠ "expense")) :
    ∃ r, csvProcessRow user_id categories bank p = some r ∧
      r.type = tx_type ∧ r.metaRawCategory = cat_name := by
  have hnoop : signCorrect (decide (p.amount < 0)) p.description cat_name tx_type
      = (cat_name, tx_type) := by
    apply signCorrect_noop
    rcases hagree with ⟨hs, ht⟩ | ⟨hs, ht⟩
    · exact Or.inl ⟨by simpa using hs, ht⟩
    · exact Or.inr ⟨by simpa using not_lt.mpr hs.le, ht⟩
  refine ⟨{ user_id := user_id, amount := ratAbs p.amount, type := tx_type,
            category_id := find_category_id categories cat_name tx_type,
            description := emittedDescription p.description, source := "csv",
            ignore_in_stats := ignore, transaction_date := p.date,
            metaRawCategory := cat_name, metaMcc := p.mcc, metaBank := bank,
            metaIsOutgoing := none }, ?_, rfl, rfl⟩
  simp only [csvProcessRow, hcat, hnoop, not_lt.mpr hthr, if_false]

/-- C8 witness: a negative-amount supermarket row (type expense from the
keyword layer) passes through the correction unchanged. -/
theorem c8_sign_correction_noop_witness :
    ∃ r, csvProcessRow "u" [] "monobank" ⟨"2025-01-01", -50, "сільпо", ""⟩ = some r ∧
      r.type = "expense" ∧ r.metaRawCategory = "Супермаркети" :=
  c8_sign_correction_noop "u" [] "monobank" ⟨"2025-01-01", -50, "сільпо", ""⟩
    "Супермаркети" "expense" false (by decide) (by decide)
    (Or.inl ⟨by norm_num, by decide⟩)

/-- C9: a negative-amount row that the categorizer typed as income is
emitted with type expense but with the categorizer's (income-vocabulary)
category name unchanged, and that name together with type expense is what
`find_category_id` receives. -/
theorem c9_debit_income_keeps_category (user_id : String)
    (categories : List Category) (bank : String) (p : RawRow)
    (cat_name : String) (ignore : Bool)
    (hcat : categorize p.description p.mcc = (cat_name, "income", ignore))
    (hneg : p.amount < 0) (hthr : mkRat 1 100 ≤ ratAbs p.amount) :
    ∃ r, csvProcessRow user_id categories bank p = some r ∧
      r.type = "expense" ∧ r.metaRawCategory = cat_name ∧
      r.category_id = find_category_id categories cat_name "expense" := by
  have hcorr : signCorrect (decide (p.amount < 0)) p.description cat_name "income"
      = (cat_name, "expense") := by
    simp [signCorrect, hneg]
  refine ⟨{ user_id := user_id, amount := ratAbs p.amount, type := "expense",
            category_id := find_category_id categories cat_name "expense",
            description := emittedDescription p.description, source := "csv",
            ignore_in_stats := ignore, transaction_date := p.date,
            metaRawCategory := cat_name, metaMcc := p.mcc, metaBank := bank,
            metaIsOutgoing := none }, ?_, rfl, rfl, rfl⟩
  simp only [csvProcessRow, hcat, hcorr, not_lt.mpr hthr, if_false]

/-- C9 witness: description "зарплата" with amount -5000 is emitted as
expense with raw_category "Зарплата", resolved against the catalog with
type expense. -/
theorem c9_debit_income_keeps_category_witness :
    ∃ r, csvProcessRow "u" [] "monobank" ⟨"2025-01-01", -5000, "зарплата", ""⟩ = some r ∧
      r.type = "expense" ∧ r.metaRawCategory = "Зарплата" ∧
      r.category_id = find_category_id [] "Зарплата" "expense" :=
  c9_debit_income_keeps_category "u" [] "monobank"
    ⟨"2025-01-01", -5000, "зарплата", ""⟩ "Зарплата" false
    (by decide) (by norm_num) (by decide)

/-- A CSV loop input is dropped when extraction rejected it (`none`) or its
absolute amount is below the 0.01 threshold. -/
def csvDropped : Option RawRow → Bool
  | none => true
  | some p => decide (ratAbs p.amount < mkRat 1 100)

/-- A PDF raw row is dropped exactly when its absolute amount is below the
0.01 threshold. -/
def belowThreshold (p : RawRow) : Bool :=
  decide (ratAbs p.amount < mkRat 1 100)

/-- Field facts about any row the CSV per-row step emits: the amount is the
absolute value of the raw amount, at least 0.01, and the source tag is
"csv". -/
theorem csvProcessRow_some_fields (user_id : String) (categories : List Category)
    (bank : String) (p : RawRow) (r : CategorizedRow)
    (h : csvProcessRow user_id categories bank p = some r) :
    r.amount = ratAbs p.amount ∧ mkRat 1 100 ≤ ratAbs p.amount ∧
      r.source = "csv" := by
  by_cases hthr : ratAbs p.amount < mkRat 1 100
  · simp [csvProcessRow, hthr] at h
  · rcases hc : categorize p.description p.mcc with ⟨c, t, i⟩
    rcases hs : signCorrect (decide (p.amount < 0)) p.description c t with ⟨c2, t2⟩
    simp only [csvProcessRow, hthr, if_false, hc, hs, Option.some.injEq] at h
    subst h
    exact ⟨rfl, not_lt.mp hthr, rfl⟩

/-- The CSV per-row step drops a row exactly when its absolute amount is
below 0.01. -/
theorem csvProcessRow_none_iff (user_id : String) (categories : List Category)
    (bank : String) (p : RawRow) :
    csvProcessRow user_id categories bank p = none ↔
      ratAbs p.amount < mkRat 1 100 := by
  by_cases hthr : ratAbs p.amount < mkRat 1 100
  · simp [csvProcessRow, hthr]
  · rcases hc : categorize p.description p.mcc with ⟨c, t, i⟩
    rcases hs : signCorrect (decide (p.amount < 0)) p.description c t with ⟨c2, t2⟩
    simp [csvProcessRow, hthr, hc, hs]

/-- Field facts about any row the PDF per-row step emits. -/
theorem pdfProcessRow_some_fields (user_id : String) (categories : List Category)
    (bank : String) (p : RawRow) (r : CategorizedRow)
    (h : pdfProcessRow user_id categories bank p = some r) :
    r.amount = ratAbs p.amount ∧ mkRat 1 100 ≤ ratAbs p.amount ∧
      r.source = "csv" := by
  by_cases hthr : ratAbs p.amount < mkRat 1 100
  · simp [pdfProcessRow, hthr] at h
  · rcases hc : classify_transaction p.amount p.description p.mcc with ⟨c, t, i⟩
    simp only [pdfProcessRow, hthr, if_false, hc, Option.some.injEq] at h
    subst h
    exact ⟨rfl, not_lt.mp hthr, rfl⟩

/-- The PDF per-row step drops a row exactly when its absolute amount is
below 0.01. -/
theorem pdfProcessRow_none_iff (user_id : String) (categories : List Category)
    (bank : String) (p : RawRow) :
    pdfProcessRow user_id categories bank p = none ↔
      ratAbs p.amount < mkRat 1 100 := by
  by_cases hthr : ratAbs p.amount < mkRat 1 100
  · simp [pdfProcessRow, hthr]
  · rcases hc : classify_transaction p.amount p.description p.mcc with ⟨c, t, i⟩
    simp [pdfProcessRow, hthr, hc]

/-- Loop invariant of the CSV row loop: every emitted row's amount is the
absolute raw amount (≥ 0.01) of some input and its source is "csv"; the
skip counter counts exactly the dropped inputs; rows plus skips account for
every input. -/
theorem csvLoop_spec (user_id : String) (categories : List Category)
    (bank : String) (inputs : List (Option RawRow)) :
    (∀ r ∈ (csvLoop user_id categories bank inputs).1,
        mkRat 1 100 ≤ r.amount ∧ r.source = "csv" ∧
          ∃ p, some p ∈ inputs ∧ r.amount = ratAbs p.amount) ∧
    (csvLoop user_id categories bank inputs).2 = inputs.countP csvDropped ∧
    (csvLoop user_id categories bank inputs).1.length +
        (csvLoop user_id categories bank inputs).2 = inputs.length := by
  induction inputs with
  | nil => exact ⟨by simp [csvLoop], by simp [csvLoop], by simp [csvLoop]⟩
  | cons o rest ih =>
    obtain ⟨ihMem, ihCount, ihLen⟩ := ih
    rcases hrec : csvLoop user_id categories bank rest with ⟨rows, skipped⟩
    rw [hrec] at ihMem ihCount ihLen
    dsimp only at ihMem ihCount ihLen
    cases o with
    | none =>
      refine ⟨?_, ?_, ?_⟩
      · intro r hr
        have hr2 : r ∈ (csvLoop user_id categories bank (none :: rest)).1 := hr
        rw [show csvLoop user_id categories bank (none :: rest) =
          (rows, skipped + 1) by simp [csvLoop, hrec]] at hr2
        obtain ⟨h1, h2, p, hp, h3⟩ := ihMem r hr2
        exact ⟨h1, h2, p, List.mem_cons_of_mem _ hp, h3⟩
      · simp [csvLoop, hrec, List.countP_cons, csvDropped, ihCount]
      · simp only [csvLoop, hrec, List.length_cons]
        omega
    | some p =>
      cases hrow : csvProcessRow user_id categories bank p with
      | none =>
        have hb : csvDropped (some p) = true := by
          simp [csvDropped, (csvProcessRow_none_iff user_id categories bank p).mp hrow]
        refine ⟨?_, ?_, ?_⟩
        · intro r hr
          have hr2 : r ∈ (csvLoop user_id categories bank (some p :: rest)).1 := hr
          rw [show csvLoop user_id categories bank (some p :: rest) =
            (rows, skipped + 1) by simp [csvLoop, hrec, hrow]] at hr2
          obtain ⟨h1, h2, q, hq, h3⟩ := ihMem r hr2
          exact ⟨h1, h2, q, List.mem_cons_of_mem _ hq, h3⟩
        · simp [csvLoop, hrec, hrow, List.countP_cons, hb, ihCount]
        · simp only [csvLoop, hrec, hrow, List.length_cons]
          omega
      | some r0 =>
        have hb : csvDropped (some p) = false := by
          simp only [csvDropped, decide_eq_false_iff_not]
          intro hlt
          rw [(csvProcessRow_none_iff user_id categories bank p).mpr hlt] at hrow
          exact Option.noConfusion hrow
        have hfields := csvProcessRow_some_fields user_id categories bank p r0 hrow
        refine ⟨?_, ?_, ?_⟩
        · intro r hr
          have hr2 : r ∈ (csvLoop user_id categories bank (some p :: rest)).1 := hr
          rw [show csvLoop user_id categories bank (some p :: rest) =
            (r0 :: rows, skipped) by simp [csvLoop, hrec, hrow]] at hr2
          rcases List.mem_cons.mp hr2 with hr0 | hrrest
          · subst hr0
            exact ⟨hfields.1 ▸ hfields.2.1, hfields.2.2,
              p, List.mem_cons_self _ _, hfields.1⟩
          · obtain ⟨h1, h2, q, hq, h3⟩ := ihMem r hrrest
            exact ⟨h1, h2, q, List.mem_cons_of_mem _ hq, h3⟩
        · simp [csvLoop, hrec, hrow, List.countP_cons, hb, ihCount]
        · simp only [csvLoop, hrec, hrow, List.length_cons]
          omega

/-- Loop invariant of the PDF row loop (`_process_raw_rows`), mirror of
`csvLoop_spec`. -/
theorem pdfLoop_spec (user_id : String) (categories : List Category)
    (bank : String) (raw_rows : List RawRow) :
    (∀ r ∈ (pdfLoop user_id categories bank raw_rows).1,
        mkRat 1 100 ≤ r.amount ∧ r.source = "csv" ∧
          ∃ p, p ∈ raw_rows ∧ r.amount = ratAbs p.amount) ∧
    (pdfLoop user_id categories bank raw_rows).2 = raw_rows.countP belowThreshold ∧
    (pdfLoop user_id categories bank raw_rows).1.length +
        (pdfLoop user_id categories bank raw_rows).2 = raw_rows.length := by
  induction raw_rows with
  | nil => exact ⟨by simp [pdfLoop], by simp [pdfLoop], by simp [pdfLoop]⟩
  | cons p rest ih =>
    obtain ⟨ihMem, ihCount, ihLen⟩ := ih
    rcases hrec : pdfLoop user_id categories bank rest with ⟨rows, skipped⟩
    rw [hrec] at ihMem ihCount ihLen
    dsimp only at ihMem ihCount ihLen
    cases hrow : pdfProcessRow user_id categories bank p with
    | none =>
      have hb : belowThreshold p = true := by
        simp [belowThreshold, (pdfProcessRow_none_iff user_id categories bank p).mp hrow]
      refine ⟨?_, ?_, ?_⟩
      · intro r hr
        have hr2 : r ∈ (pdfLoop user_id categories bank (p :: rest)).1 := hr
        rw [show pdfLoop user_id categories bank (p :: rest) =
          (rows, skipped + 1) by simp [pdfLoop, hrec, hrow]] at hr2
        obtain ⟨h1, h2, q, hq, h3⟩ := ihMem r hr2
        exact ⟨h1, h2, q, List.mem_cons_of_mem _ hq, h3⟩
      · simp [pdfLoop, hrec, hrow, List.countP_cons, hb, ihCount]
      · simp only [pdfLoop, hrec, hrow, List.length_cons]
        omega
    | some r0 =>
      have hb : belowThreshold p = false := by
        simp only [belowThreshold, decide_eq_false_iff_not]
        intro hlt
        rw [(pdfProcessRow_none_iff user_id categories bank p).mpr hlt] at hrow
        exact Option.noConfusion hrow
      have hfields := pdfProcessRow_some_fields user_id categories bank p r0 hrow
      refine ⟨?_, ?_, ?_⟩
      · intro r hr
        have hr2 : r ∈ (pdfLoop user_id categories bank (p :: rest)).1 := hr
        rw [show pdfLoop user_id categories bank (p :: rest) =
          (r0 :: rows, skipped) by simp [pdfLoop, hrec, hrow]] at hr2
        rcases List.mem_cons.mp hr2 with hr0 | hrrest
        · subst hr0
          exact ⟨hfields.1 ▸ hfields.2.1, hfields.2.2,
            p, List.mem_cons_self _ _, hfields.1⟩
        · obtain ⟨h1, h2, q, hq, h3⟩ := ihMem r hrrest
          exact ⟨h1, h2, q, List.mem_cons_of_mem _ hq, h3⟩
      · simp [pdfLoop, hrec, hrow, List.countP_cons, hb, ihCount]
      · simp only [pdfLoop, hrec, hrow, List.length_cons]
        omega

/-- `_process_raw_rows` projections in terms of its loop. -/
theorem process_raw_rows_proj (raw_rows : List RawRow) (skip0 : Nat)
    (bank : String) (totals : List (String × String)) (user_id : String)
    (categories : List Category) :
    (process_raw_rows raw_rows skip0 bank totals user_id categories).rows =
        (pdfLoop user_id categories bank raw_rows).1 ∧
    (process_raw_rows raw_rows skip0 bank totals user_id categories).skipped =
        skip0 + (pdfLoop user_id categories bank raw_rows).2 := by
  rcases h : pdfLoop user_id categories bank raw_rows with ⟨rows, skipped⟩
  exact ⟨by simp [process_raw_rows, h], by simp [process_raw_rows, h]⟩

/-- C1: in both pipelines every emitted row's amount is the absolute value
of some extracted raw amount and is at least 0.01; inputs that are rejected
or below the threshold are exactly what the skipped counter counts, and
emitted rows plus skips account for every input. -/
theorem c1_abs_amount_threshold_skip (user_id : String)
    (categories : List Category) (bank : String)
    (inputs : List (Option RawRow)) (raw_rows : List RawRow) (skip0 : Nat)
    (bank2 : String) (totals : List (String × String)) :
    (∀ r ∈ (csvLoop user_id categories bank inputs).1,
        mkRat 1 100 ≤ r.amount ∧
          ∃ p, some p ∈ inputs ∧ r.amount = ratAbs p.amount) ∧
    (csvLoop user_id categories bank inputs).2 = inputs.countP csvDropped ∧
    (csvLoop user_id categories bank inputs).1.length +
        (csvLoop user_id categories bank inputs).2 = inputs.length ∧
    (∀ r ∈ (process_raw_rows raw_rows skip0 bank2 totals user_id categories).rows,
        mkRat 1 100 ≤ r.amount ∧
          ∃ p, p ∈ raw_rows ∧ r.amount = ratAbs p.amount) ∧
    (process_raw_rows raw_rows skip0 bank2 totals user_id categories).skipped =
        skip0 + raw_rows.countP belowThreshold ∧
    (process_raw_rows raw_rows skip0 bank2 totals user_id categories).rows.length +
        raw_rows.countP belowThreshold = raw_rows.length := by
  obtain ⟨hm, hc, hl⟩ := csvLoop_spec user_id categories bank inputs
  obtain ⟨hm2, hc2, hl2⟩ := pdfLoop_spec user_id categories bank2 raw_rows
  obtain ⟨hrows, hskip⟩ :=
    process_raw_rows_proj raw_rows skip0 bank2 totals user_id categories
  refine ⟨fun r hr => ⟨(hm r hr).1, (hm r hr).2.2⟩, hc, hl, ?_, ?_, ?_⟩
  · intro r hr
    rw [hrows] at hr
    exact ⟨(hm2 r hr).1, (hm2 r hr).2.2⟩
  · rw [hskip, hc2]
  · rw [hrows, ← hc2]
    exact hl2

/-- Concrete inputs of the C1 witness: a kept CSV row, a below-threshold
row, and an extractor rejection. -/
def c1wInputs : List (Option RawRow) :=
  [some ⟨"2025-01-01", -150, "сільпо", ""⟩,
   some ⟨"2025-01-02", mkRat 1 1000, "шум", ""⟩,
   none]

/-- The single row the CSV loop emits on `c1wInputs`. -/
def c1wRow : CategorizedRow :=
  ((csvLoop "u" [] "monobank" c1wInputs).1).headI

/-- C1 witness: the emitted row on `c1wInputs` satisfies the amount
invariant, and the two dropped inputs are counted as skipped. -/
theorem c1_abs_amount_threshold_skip_witness :
    (mkRat 1 100 ≤ c1wRow.amount ∧
      ∃ p, some p ∈ c1wInputs ∧ c1wRow.amount = ratAbs p.amount) ∧
    (csvLoop "u" [] "monobank" c1wInputs).2 = c1wInputs.countP csvDropped :=
  ⟨(c1_abs_amount_threshold_skip "u" [] "monobank" c1wInputs [] 0 "monobank" []).1
      c1wRow (by decide),
   (c1_abs_amount_threshold_skip "u" [] "monobank" c1wInputs [] 0 "monobank" []).2.1⟩

/-- C4 counterexample: the PDF pipeline emits the same source tag "csv" as
the CSV pipeline (the DB enum has no pdf value), so the two channels'
source tags are not distinct. -/
theorem c4_counterexample_source_not_distinct :
    (pdfProcessRow "u" [] "monobank"
        ⟨"2025-01-01", -300, "Іван Петренко", ""⟩).map (fun r => r.source) =
      (csvProcessRow "u" [] "monobank"
        ⟨"2025-01-01", -150, "сільпо", ""⟩).map (fun r => r.source) ∧
    (pdfProcessRow "u" [] "monobank"
        ⟨"2025-01-01", -300, "Іван Петренко", ""⟩).map (fun r => r.source) =
      some "csv" :=
  ⟨by decide, by decide⟩

/-- C4 amended: `source` is the same constant tag "csv" for every row
emitted by either pipeline — it does not distinguish the ingestion
channel. -/
theorem c4_amended_source_constant_csv (user_id : String)
    (categories : List Category) (bank : String)
    (inputs : List (Option RawRow)) (raw_rows : List RawRow) (skip0 : Nat)
    (bank2 : String) (totals : List (String × String)) :
    (∀ r ∈ (csvLoop user_id categories bank inputs).1, r.source = "csv") ∧
    (∀ r ∈ (process_raw_rows raw_rows skip0 bank2 totals user_id categories).rows,
        r.source = "csv") := by
  obtain ⟨hm, -, -⟩ := csvLoop_spec user_id categories bank inputs
  obtain ⟨hm2, -, -⟩ := pdfLoop_spec user_id categories bank2 raw_rows
  obtain ⟨hrows, -⟩ :=
    process_raw_rows_proj raw_rows skip0 bank2 totals user_id categories
  refine ⟨fun r hr => (hm r hr).2.1, fun r hr => ?_⟩
  rw [hrows] at hr
  exact (hm2 r hr).2.1

/-- The single row the PDF loop emits in the C4 witness scenario. -/
def c4wRow : CategorizedRow :=
  ((process_raw_rows [⟨"2025-01-03", -300, "Іван Петренко", "4829"⟩] 0
      "monobank" [] "u" []).rows).headI

/-- C4 witness: a concrete PDF-pipeline row carries source "csv". -/
theorem c4_amended_source_constant_csv_witness : c4wRow.source = "csv" :=
  (c4_amended_source_constant_csv "u" [] "monobank" [] 
      [⟨"2025-01-03", -300, "Іван Петренко", "4829"⟩] 0 "monobank" []).2
    c4wRow (by decide)

/-- `pdf_parser._is_garbage`: true when the text is empty or more than half
of its characters are control characters, the replacement glyph U+FFFD, or
one of the placeholder glyphs. -/
def is_garbage (text : String) : Bool :=
  if text.data.isEmpty then true
  else
    let bad := text.data.countP (fun c =>
      c.toNat < 32 || c.toNat == 65533 || c == '•' || c == '□' || c == '■')
    decide (2 * bad > text.data.length)

/-- The space-removal of `pdf_parser._parse_abank_amount`:
`re.sub(r'(?<=\d) (?=\d)', '', ...)` — a space is dropped exactly when it
sits between two digits. -/
def stripDigitSpaces : List Char → List Char
  | a :: ' ' :: b :: t =>
    if a.isDigit && b.isDigit then a :: stripDigitSpaces (b :: t)
    else a :: stripDigitSpaces (' ' :: b :: t)
  | a :: t => a :: stripDigitSpaces t
  | [] => []

/-- `pdf_parser._parse_abank_amount`: strips the text, removes spaces
embedded between digits, then parses as a float. -/
def parse_abank_amount (raw : String) : Option ℚ :=
  if (pyStripL raw.data).isEmpty then none
  else pyFloat? (stripDigitSpaces (pyStripL raw.data))

/-- One row of `pdf_parser._extract_monobank_rows` (cells may be `None`):
`none` when the row is skipped (fewer than 4 cells, empty or header-like
date cell, unparseable amount); otherwise the `RawRow` whose description is
the stripped text cell (newlines to spaces, garbage replaced by "Переказ"
when an MCC is present, else "Без опису") with " (MCC <code>)" appended
when the MCC cell is non-empty. The `datetime` parse of the date cell is
abstracted as the cell text. -/
def extract_monobank_row (row : List (Option String)) : Option RawRow :=
  if row.length < 4 then none
  else
    let date_raw := pyStrip ((row.getD 0 none).getD "")
    if date_raw == "" || strContains date_raw "Дата" then none
    else
      let desc_stripped := pyStrip ((row.getD 1 none).getD "")
      let desc_raw : String := ⟨desc_stripped.data.map
        (fun c => if c == '\n' then ' ' else c)⟩
      let mcc_raw := pyStrip ((row.getD 2 none).getD "")
      let amt_raw := pyStrip ((row.getD 3 none).getD "")
      match parse_abank_amount amt_raw with
      | none => none
      | some amount =>
        let desc_raw2 :=
          if is_garbage desc_raw then
            (if !(mcc_raw == "") then "Переказ" else "Без опису")
          else desc_raw
        let final_desc :=
          if !(mcc_raw == "") then desc_raw2 ++ " (MCC " ++ mcc_raw ++ ")"
          else desc_raw2
        some ⟨date_raw, amount, final_desc, mcc_raw⟩

/-- Concatenating strings concatenates their character lists. -/
theorem strData_append (a b : String) : (a ++ b).data = a.data ++ b.data := by
  cases a
  cases b
  rfl

/-- A text containing any character of the forbidden class is never a
person name. -/
theorem is_person_name_false_of_forbidden (s : String) (c : Char)
    (hc : c ∈ s.data) (hf : isPersonForbidden c = true) :
    is_person_name s = false := by
  have hany : s.data.any isPersonForbidden = true :=
    List.any_eq_true.mpr ⟨c, hc, hf⟩
  unfold is_person_name
  by_cases hlen : s.data.length < 5
  · rw [if_pos hlen]
  · rw [if_neg hlen, if_pos hany]

/-- C10: a Monobank PDF table row extracted with a non-empty MCC cell gets
" (MCC <code>)" appended to its description, so the description contains an
opening and closing parenthesis (and the MCC code's digits, when it has
any), and `_is_person_name` is false on it — the person-name transfer rule
can never fire on a Monobank PDF row carrying an MCC. -/
theorem c10_monobank_mcc_blocks_person_name (row : List (Option String))
    (r : RawRow) (hr : extract_monobank_row row = some r)
    (hmcc : r.mcc ≠ "") :
    (∃ d, r.description = d ++ " (MCC " ++ r.mcc ++ ")") ∧
    '(' ∈ r.description.data ∧ ')' ∈ r.description.data ∧
    ((∃ c ∈ r.mcc.data, c.isDigit = true) →
      ∃ c ∈ r.description.data, c.isDigit = true) ∧
    is_person_name r.description = false := by
  simp only [extract_monobank_row] at hr
  split at hr
  · exact Option.noConfusion hr
  split at hr
  · exact Option.noConfusion hr
  split at hr
  · exact Option.noConfusion hr
  injection hr with h
  subst h
  dsimp only at hmcc ⊢
  have hb : (!(pyStrip ((row.getD 2 none).getD "") == "")) = true := by
    simp only [Bool.not_eq_true', beq_eq_false_iff_ne]
    exact hmcc
  rw [if_pos hb]
  refine ⟨⟨_, rfl⟩, ?_, ?_, ?_, ?_⟩
  · simp only [strData_append]
    exact List.mem_append.mpr (Or.inl (List.mem_append.mpr
      (Or.inl (List.mem_append.mpr (Or.inr (by decide))))))
  · simp only [strData_append]
    exact List.mem_append.mpr (Or.inr (by decide))
  · rintro ⟨c, hc, hcd⟩
    refine ⟨c, ?_, hcd⟩
    simp only [strData_append]
    exact List.mem_append.mpr (Or.inl (List.mem_append.mpr (Or.inr hc)))
  · apply is_person_name_false_of_forbidden _ '('
    · simp only [strData_append]
      exact List.mem_append.mpr (Or.inl (List.mem_append.mpr
        (Or.inl (List.mem_append.mpr (Or.inr (by decide))))))
    · decide

/-- The C10 witness input row: date, person-name description, MCC cell
"4829", amount cell "-300.00". -/
def c10wRowInput : List (Option String) :=
  [some "01.01.2025", some "Іван Петренко", some "4829", some "-300.00"]

/-- The raw row the Monobank extractor produces on `c10wRowInput`. -/
def c10wRow : RawRow :=
  ⟨"01.01.2025", -300, "Іван Петренко (MCC 4829)", "4829"⟩

/-- C10 witness: on the concrete row the appended MCC suffix makes the
description fail the person-name check even though the original text was a
bare person name. -/
theorem c10_monobank_mcc_blocks_person_name_witness :
    (∃ d, c10wRow.description = d ++ " (MCC " ++ c10wRow.mcc ++ ")") ∧
    '(' ∈ c10wRow.description.data ∧ ')' ∈ c10wRow.description.data ∧
    ((∃ c ∈ c10wRow.mcc.data, c.isDigit = true) →
      ∃ c ∈ c10wRow.description.data, c.isDigit = true) ∧
    is_person_name c10wRow.description = false :=
  c10_monobank_mcc_blocks_person_name c10wRowInput c10wRow (by decide) (by decide)

/-- `pdf_parser.parse_pdf`, bank-routing layer: dispatches on page-1 text
(lowercased substring search) to the Monobank or A-Bank branch, and raises
`ValueError` — modelled as `Except.error` with the source's message — when
neither bank's name substrings occur. The two branch computations
(`_parse_monobank_pdf`, `_parse_abank_pdf`, which run pdfplumber table
extraction) are abstracted as the results they would return. -/
def parse_pdf_route (first_page_text : String)
    (monoResult abankResult : PDFParseResult) : Except String PDFParseResult :=
  let text_lower := pyLower first_page_text
  if strContains text_lower "monobank" || strContains text_lower "універсал банк" ||
      strContains text_lower "universal bank" then
    Except.ok monoResult
  else if strContains text_lower "а-банк" || strContains text_lower "акцент-банк" then
    Except.ok abankResult
  else
    Except.error "Невідомий формат виписки. Підтримувані формати: Monobank, А-Банк."

/-- C2: when the page-1 text contains none of the supported banks' name
substrings (case-insensitively), `parse_pdf` raises the explicit
unrecognized-format error and returns no result — no rows, no skip count,
no bank_totals. -/
theorem c2_unknown_bank_raises (first_page_text : String)
    (monoResult abankResult : PDFParseResult)
    (h1 : strContains (pyLower first_page_text) "monobank" = false)
    (h2 : strContains (pyLower first_page_text) "універсал банк" = false)
    (h3 : strContains (pyLower first_page_text) "universal bank" = false)
    (h4 : strContains (pyLower first_page_text) "а-банк" = false)
    (h5 : strContains (pyLower first_page_text) "акцент-банк" = false) :
    parse_pdf_route first_page_text monoResult abankResult =
      Except.error "Невідомий формат виписки. Підтримувані формати: Monobank, А-Банк." := by
  simp [parse_pdf_route, h1, h2, h3, h4, h5]

/-- C2 witness: a page-1 text naming neither supported bank is rejected
with the error, whatever the branch results would have been. -/
theorem c2_unknown_bank_raises_witness :
    parse_pdf_route "Виписка за рахунком\nПУМБ" ⟨[], 0, "monobank", []⟩
        ⟨[], 0, "abank", []⟩ =
      Except.error "Невідомий формат виписки. Підтримувані формати: Monobank, А-Банк." :=
  c2_unknown_bank_raises "Виписка за рахунком\nПУМБ" ⟨[], 0, "monobank", []⟩
    ⟨[], 0, "abank", []⟩ (by decide) (by decide) (by decide) (by decide) (by decide)
